import Mathlib

/-!
Verification of the NSBall interaction core: shallow embedding of the
velocity trackers, spring-animation state machine, rectangle clamp, remap,
launch/dock controller logic and collision response, with theorems settling
the specification claims. Real numbers of the source (JS doubles) are
modelled as rationals; clock reads (`CACurrentMediaTime()`) are passed as an
explicit `now` argument.
-/

namespace NSBall

/-- A 2D point (`CGPoint`). -/
structure CGPoint where
  x : ℚ
  y : ℚ
deriving DecidableEq, Repr

/-- A 2D size (`CGSize`). -/
structure CGSize where
  width : ℚ
  height : ℚ
deriving DecidableEq, Repr

/-- A rectangle (`CGRect`). -/
structure CGRect where
  origin : CGPoint
  size : CGSize
deriving DecidableEq, Repr

/-- A 2D vector (`CGVector`). -/
structure CGVector where
  dx : ℚ
  dy : ℚ
deriving DecidableEq, Repr

def CGRectGetMinX (r : CGRect) : ℚ := r.origin.x

def CGRectGetMaxX (r : CGRect) : ℚ := r.origin.x + r.size.width

def CGRectGetMinY (r : CGRect) : ℚ := r.origin.y

def CGRectGetMaxY (r : CGRect) : ℚ := r.origin.y + r.size.height

def CGRectGetMidX (r : CGRect) : ℚ := r.origin.x + r.size.width / 2

def CGRectGetMidY (r : CGRect) : ℚ := r.origin.y + r.size.height / 2

/-- JavaScript floating-point division: when the divisor is zero the result
is a non-finite value (`Infinity` or `NaN`), never an ordinary number. `none`
models that non-finite outcome; `some` carries the exact quotient. -/
def jsDiv (a b : ℚ) : Option ℚ :=
  if b = 0 then none else some (a / b)

/-! ## Drag velocity tracker (view controller module, `VelocityTracker` over `CGPoint`) -/

/-- A timestamped 2D sample (`Sample` of the view-controller module). -/
structure DragSample where
  time : ℚ
  pos : CGPoint
deriving DecidableEq, Repr

/-- The drag tracker's look-back window, the literal `0.1` of
`filteredSamples`. -/
def dragWindow : ℚ := 1/10

/-- `VelocityTracker.filteredSamples`: keeps the samples strictly younger
than 0.1 s at the current time. -/
def dragFilteredSamples (now : ℚ) (samples : List DragSample) : List DragSample :=
  samples.filter (fun s => now - s.time < dragWindow)

/-- `VelocityTracker.add`: append a sample stamped with the current time,
then replace the sample list by its filtered form. -/
def dragAdd (now : ℚ) (samples : List DragSample) (pos : CGPoint) : List DragSample :=
  dragFilteredSamples now (samples ++ [⟨now, pos⟩])

/-- `VelocityTracker.velocity` of the 2D (drag) tracker: zero point when
fewer than two samples survive the filter, otherwise the componentwise JS
division of the first-to-last position delta by `last.time - first.time`
(no guard against a zero elapsed time in the source). -/
def dragVelocity (now : ℚ) (samples : List DragSample) : Option CGPoint :=
  let fs := dragFilteredSamples now samples
  if fs.length < 2 then some ⟨0, 0⟩
  else
    match fs.head?, fs.getLast? with
    | some first, some last =>
      match jsDiv (last.pos.x - first.pos.x) (last.time - first.time),
            jsDiv (last.pos.y - first.pos.y) (last.time - first.time) with
      | some vx, some vy => some ⟨vx, vy⟩
      | _, _ => none
    | _, _ => some ⟨0, 0⟩

/-! ## Motion velocity tracker (motion module, scalar `VelocityTracker`) -/

/-- A timestamped scalar sample (`Sample` of the motion module). -/
structure MotionSample where
  time : ℚ
  value : ℚ
deriving DecidableEq, Repr

/-- `VelocityTracker.lookBack`, the scalar tracker's window (1/15 s). -/
def lookBack : ℚ := 1/15

/-- `VelocityTracker.trim`: shift samples off the front while the oldest is
older than `lookBack`. -/
def trim (now : ℚ) (samples : List MotionSample) : List MotionSample :=
  samples.dropWhile (fun s => lookBack < now - s.time)

/-- `VelocityTracker.addSample`: push a sample stamped with the current
time, then trim. -/
def addSample (now : ℚ) (samples : List MotionSample) (val : ℚ) : List MotionSample :=
  trim now (samples ++ [⟨now, val⟩])

/-- `VelocityTracker.velocity` of the scalar (motion) tracker: after
trimming, if a first and a last sample exist, the value delta divided by
`CACurrentMediaTime() - first.time` (the elapsed time up to the query, not
up to the last sample), guarded to return 0 when that elapsed time is not
positive; 0 with no samples. -/
def motionVelocity (now : ℚ) (samples : List MotionSample) : ℚ :=
  let ts := trim now samples
  match ts.head?, ts.getLast? with
  | some first, some last =>
    let timeDelta := now - first.time
    let distDelta := last.value - first.value
    if 0 < timeDelta then distDelta / timeDelta else 0
  | _, _ => 0

/-! ## Utility functions (util module) -/

/-- `RADIUS` constant of the util module. -/
def RADIUS : ℚ := 100

/-- `constrainRect(r, bounds)`: clamp each edge in turn, mutating the
origin in place, so each later test sees the earlier assignments. -/
def constrainRect (r bounds : CGRect) : CGRect :=
  let boundsMinX := CGRectGetMinX bounds
  let boundsMaxX := CGRectGetMaxX bounds
  let boundsMinY := CGRectGetMinY bounds
  let boundsMaxY := CGRectGetMaxY bounds
  let r1 := if CGRectGetMinX r < boundsMinX then
    { r with origin := { r.origin with x := boundsMinX } } else r
  let r2 := if CGRectGetMaxX r1 > boundsMaxX then
    { r1 with origin := { r1.origin with x := boundsMaxX - r1.size.width } } else r1
  let r3 := if CGRectGetMinY r2 < boundsMinY then
    { r2 with origin := { r2.origin with y := boundsMinY } } else r2
  let r4 := if CGRectGetMaxY r3 > boundsMaxY then
    { r3 with origin := { r3.origin with y := boundsMaxY - r3.size.height } } else r3
  r4

/-- `remap(x, domainStart, domainEnd, rangeStart, rangeEnd, clamp = true)`:
linear remap of `x` from the domain interval to the range interval, clamped
into the range (whichever of its ends is smaller) when `clamp` is set. -/
def remap (x domainStart domainEnd rangeStart rangeEnd : ℚ) (clamp : Bool := true) : ℚ :=
  let domain := domainEnd - domainStart
  let range := rangeEnd - rangeStart
  let value := (x - domainStart) / domain
  let result := rangeStart + value * range
  if clamp then
    if rangeStart < rangeEnd then
      min (max result rangeStart) rangeEnd
    else
      min (max result rangeEnd) rangeStart
  else
    result

/-- `CGPointGetLength`: squared form is avoided in the source (it takes a
square root); here only its positivity structure matters, so the squared
length is kept as the comparable quantity. The source's
`CGPointGetLength(v) > 0` is equivalent to `v.x^2 + v.y^2 > 0`. -/
def CGPointGetLengthSq (point : CGPoint) : ℚ :=
  point.x * point.x + point.y * point.y

/-! ## SpringAnimation (motion module) -/

/-- `SpringParams`, immutable spring configuration. -/
structure SpringParams where
  response : ℚ
  dampingRatio : ℚ
  epsilon : ℚ := 1/100
deriving DecidableEq, Repr

/-- `SpringParams.passiveEase = new SpringParams(0.35, 0.85)`. -/
def SpringParams.passiveEase : SpringParams := ⟨35/100, 85/100, 1/100⟩

/-- State of a `SpringAnimation` instance. `value` embeds `_value`,
`velocityVar` embeds `_velocity`, `samples` embeds
`externallySetVelocityTracker.samples`, `hasStopFunction` records whether
`stopFunction` is set, and `solverRunning` records whether the external
popmotion solve started by `animate` is still active (its cancellation via
`stopFunction()` is synchronous). -/
structure SpringAnimation where
  animating : Bool
  samples : List MotionSample
  value : ℚ
  targetValue : Option ℚ
  velocityVar : Option ℚ
  hasStopFunction : Bool
  solverRunning : Bool
  scale : ℚ
  params : SpringParams
deriving DecidableEq, Repr

/-- `SpringAnimation.stop()`: clear the target, leave the animating state,
and synchronously cancel any in-flight solve (`stopFunction?.()`); the
`stopFunction` field itself is not cleared by `stop`. -/
def SpringAnimation.stop (s : SpringAnimation) : SpringAnimation :=
  { s with targetValue := none, animating := false, solverRunning := false }

/-- The `value` setter: assign `_value`, `stop()`, then record the new
value in the externally-set velocity tracker. -/
def SpringAnimation.setValue (now : ℚ) (s : SpringAnimation) (v : ℚ) : SpringAnimation :=
  let s1 := ({ s with value := v } : SpringAnimation).stop
  { s1 with samples := addSample now s1.samples v }

/-- The `velocity` getter: the `_velocity` recorded at `start` (defaulting
to 0) while animating, the externally-set tracker's velocity otherwise. -/
def SpringAnimation.velocity (now : ℚ) (s : SpringAnimation) : ℚ :=
  if s.animating then (s.velocityVar).getD 0 else motionVelocity now s.samples

/-- `SpringAnimation.start(targetValue, velocity)`: stop the prior solve,
mark animating, record target and velocity, and hand the solve to the
external popmotion `animate`, keeping its `stop` handle. -/
def SpringAnimation.start (s : SpringAnimation) (tv v : ℚ) : SpringAnimation :=
  let s1 := s.stop
  { s1 with animating := true, targetValue := some tv, velocityVar := some v,
            hasStopFunction := true, solverRunning := true }

/-- The solver's `onUpdate` callback: assign `_value = value / scale` (the
`onChange` observer call is external). The solver reports only a value,
never a velocity. -/
def SpringAnimation.solverTick (s : SpringAnimation) (raw : ℚ) : SpringAnimation :=
  { s with value := raw / s.scale }

/-- The solver's `onComplete` callback: clear `stopFunction`, then `stop()`. -/
def SpringAnimation.solverComplete (s : SpringAnimation) : SpringAnimation :=
  ({ s with hasStopFunction := false } : SpringAnimation).stop

/-- The `SpringAnimation` constructor: fields take their initializers, then
`this.value = initialValue` runs the `value` setter. -/
def SpringAnimation.create (now : ℚ) (initialValue scale : ℚ)
    (params : SpringParams := SpringParams.passiveEase) : SpringAnimation :=
  SpringAnimation.setValue now
    ⟨false, [], 0, none, none, false, false, scale, params⟩ initialValue

/-! ## Ball entity (ball module) -/

/-- The observable state of a `Ball` node relevant to the controller:
identity (`id`, standing for the node's object identity in the scene
graph), geometry, the scene-graph scale set by `setScale`, and its physics
body's dynamic/gravity/velocity state. -/
structure BallEntity where
  id : ℕ
  radius : ℚ
  position : CGPoint
  scaleFactor : ℚ
  velocity : CGVector
  isDynamic : Bool
  affectedByGravity : Bool
deriving DecidableEq, Repr

/-- `Ball.create(radius, pos)`: a fresh dynamic ball at `pos`. -/
def BallCreate (id : ℕ) (radius : ℚ) (pos : CGPoint) : BallEntity :=
  ⟨id, radius, pos, 1, ⟨0, 0⟩, true, true⟩

/-- `applyImpulse` on the ball's physics body (external physics engine;
an impulse adds to the body's momentum — with the body's mass abstracted
to 1 it adds to velocity). -/
def BallEntity.applyImpulse (b : BallEntity) (i : CGVector) : BallEntity :=
  { b with velocity := ⟨b.velocity.dx + i.dx, b.velocity.dy + i.dy⟩ }

/-! ## View controller (view controller module) -/

/-- The controller state the claims are about: the `_ball` backing field,
the ids of the entities attached to the scene (`scene.addChild` /
`removeFromParent`), and the deferred physics-step queue, whose only queued
thunk in the source applies an impulse to the freshly launched ball. -/
structure ViewController where
  ball : Option BallEntity
  sceneChildren : List ℕ
  physicsQueue : List CGVector
deriving DecidableEq, Repr

/-- `Ball.destroy()` as seen by the scene: `removeFromParent` detaches the
node (the physics body nulling is internal to the ball). -/
def destroyFromScene (sceneChildren : List ℕ) (b : BallEntity) : List ℕ :=
  sceneChildren.filter (fun i => i ≠ b.id)

/-- The `ball` setter: `this.ball?.destroy()`, assign `_ball`, then
`scene.addChild(value)` only when the new value is defined. -/
def ViewController.setBall (vc : ViewController) (value : Option BallEntity) : ViewController :=
  let scene1 := match vc.ball with
    | some b => destroyFromScene vc.sceneChildren b
    | none => vc.sceneChildren
  let scene2 := match value with
    | some b => scene1 ++ [b.id]
    | none => scene1
  { vc with ball := value, sceneChildren := scene2 }

/-- The launch impulse computed inside `ViewController.launch`: base
strength 2000; upward when the launch rect's center is within 200 of the
screen frame's bottom, rightward when within 200 of its left edge, else
leftward when within 200 of its right edge. -/
def launchImpulse (rect screenFrame : CGRect) : CGVector :=
  let strength : ℚ := 2000
  let distFromLeft := CGRectGetMidX rect - CGRectGetMinX screenFrame
  let distFromRight := CGRectGetMaxX screenFrame - CGRectGetMidX rect
  let distFromBottom := CGRectGetMidY rect - CGRectGetMinY screenFrame
  let dy := if distFromBottom < 200 then strength else 0
  let dx := if distFromLeft < 200 then strength
            else if distFromRight < 200 then -strength else 0
  ⟨dx, dy⟩

/-- `ViewController.launch(rect)`: no-op without a screen; otherwise create
a ball at the rect's center, install it through the `ball` setter, set its
initial scale to match the rect, and push the impulse application onto the
deferred physics-step queue (the impulse is not applied here). The 0.5 s
scale-up tween is an external scene-graph action. `screenFrame` embeds
`this.view.window?.screen`, `newId` the fresh node identity. -/
def ViewController.launch (vc : ViewController) (rect : CGRect) (screenFrame : Option CGRect)
    (newId : ℕ) : ViewController :=
  match screenFrame with
  | none => vc
  | some frame =>
    let ball := BallCreate newId RADIUS ⟨CGRectGetMidX rect, CGRectGetMidY rect⟩
    let vc1 := vc.setBall (some ball)
    let impulse := launchImpulse rect frame
    let ball2 := { ball with scaleFactor := rect.size.width / (ball.radius * 2) }
    let vc2 := { vc1 with ball := some ball2 }
    { vc2 with physicsQueue := vc2.physicsQueue ++ [impulse] }

/-- `didSimulatePhysicsForScene`: swap the queue out, then run every queued
thunk (each applies its impulse to the ball, when one is attached). -/
def ViewController.didSimulatePhysics (vc : ViewController) : ViewController :=
  let queue := vc.physicsQueue
  let vc1 := { vc with physicsQueue := [] }
  queue.foldl
    (fun acc i => { acc with ball := acc.ball.map (fun b => b.applyImpulse i) }) vc1

/-- `ViewController.dock(rect, onComplete)`: with no ball, immediately call
`onComplete` and return; with a ball, freeze its physics (non-dynamic, no
gravity, zero velocity) and run the 0.25 s scale/move actions, whose
completion (which clears the ball and calls `onComplete`) is asynchronous.
The returned number counts the synchronous `onComplete` invocations. -/
def ViewController.dock (vc : ViewController) (rect : CGRect) : ViewController × ℕ :=
  match vc.ball with
  | none => (vc, 1)
  | some ball =>
    let ball2 := { ball with isDynamic := false, affectedByGravity := false,
                             velocity := ⟨0, 0⟩,
                             scaleFactor := rect.size.width / (ball.radius * 2) }
    ({ vc with ball := some ball2 }, 0)

/-! ## Collision sound (view controller module, `didBeginContact`) -/

/-- The normalized collision strength of `didBeginContact`:
`remap(contact.collisionImpulse, 1000, 2000, 0, 0.5)`. -/
def collisionStrength (collisionImpulse : ℚ) : ℚ :=
  remap collisionImpulse 1000 2000 0 (1/2)

/-- The sound outcome of `didBeginContact`: `none` when the strength is
not positive (early return) or every player is busy (`soundsBusy` lists
each player's `isPlaying`); otherwise the randomly chosen idle player is
started with its volume set to the strength, and that volume is returned. -/
def didBeginContactSound (collisionImpulse : ℚ) (soundsBusy : List Bool) : Option ℚ :=
  let s := collisionStrength collisionImpulse
  if s ≤ 0 then none
  else
    let soundsUsable := soundsBusy.filter (fun b => !b)
    if soundsUsable.length = 0 then none else some s

/-! ## Collision squish (ball module, `Ball.didCollide`) -/

/-- The one-shot timer scheduled by `didCollide`
(`NSTimer.scheduledTimerWithTimeIntervalRepeatsBlock(0.01, false, ...)`):
its interval, repeat flag, and the target and velocity of the
`squish.start` call inside its block. -/
structure SquishTimer where
  interval : ℚ
  repeats : Bool
  restartTarget : ℚ
  restartVelocity : ℚ
deriving DecidableEq, Repr

/-- `Ball.didCollide(strength, normal)` effects on the squish spring: start
it toward `remap(strength, 0, 1, 1, 0.8)` with velocity
`remap(strength, 0, 1, -5, -10)`, and schedule a 0.01 s one-shot timer
restarting it toward 1 with that same velocity. (The container/image
rotation to the contact normal's angle is a scene-graph effect outside the
spring state.) -/
def BallDidCollide (squish : SpringAnimation) (strength : ℚ) : SpringAnimation × SquishTimer :=
  let targetScale := remap strength 0 1 1 (4/5)
  let velocity := remap strength 0 1 (-5) (-10)
  (squish.start targetScale velocity, ⟨1/100, false, 1, velocity⟩)

/-- The scene-attachment invariant maintained by the `ball` setter: the
scene holds exactly the current ball's node, or nothing. -/
def ballSceneInv (vc : ViewController) : Prop :=
  vc.sceneChildren = match vc.ball with
    | some b => [b.id]
    | none => []

/-! ## Claim C1 -/

/-- C1, counterexample: the scalar (motion) tracker holding exactly the two
retained samples `(0, 0)` and `(1/50, 1)`, queried at time `1/25` (all
within the look-back window), returns `(v1 - v0) / (now - t0) = 25`, not
the claimed `(v1 - v0) / (t1 - t0) = 50`: the divisor is the elapsed time
up to the query, not up to the last sample. -/
theorem C1_counterexample_scalar_divisor :
    motionVelocity (1/25) [⟨0, 0⟩, ⟨1/50, 1⟩] ≠ (1 - 0) / ((1/50 : ℚ) - 0) := by
  norm_num [motionVelocity, trim, lookBack, List.dropWhile]

/-- C1, amended: with exactly two retained samples `(t0,v0), (t1,v1)`,
`t0 < t1 ≤ now`, both within the look-back windows, the 2D (drag) tracker's
velocity is `(v1 - v0) / (t1 - t0)` componentwise, while the scalar
(motion) tracker's velocity is `(v1 - v0) / (now - t0)` with `now` the
query time — the two trackers use different divisors, and they agree only
when the query happens at the last sample's time. -/
theorem C1_two_sample_velocity (t0 t1 now : ℚ) (p0 p1 : CGPoint) (v0 v1 : ℚ)
    (h01 : t0 < t1) (h1n : t1 ≤ now)
    (hd : now - t0 < dragWindow) (hm : now - t0 ≤ lookBack) :
    dragVelocity now [⟨t0, p0⟩, ⟨t1, p1⟩]
      = some ⟨(p1.x - p0.x) / (t1 - t0), (p1.y - p0.y) / (t1 - t0)⟩
    ∧ motionVelocity now [⟨t0, v0⟩, ⟨t1, v1⟩] = (v1 - v0) / (now - t0) := by
  have h2 : now - t1 < dragWindow := by linarith
  have hne : t1 - t0 ≠ 0 := sub_ne_zero.mpr h01.ne'
  have hpos : 0 < now - t0 := by linarith
  have hk : ¬ lookBack < now - t0 := not_lt.mpr hm
  constructor
  · simp [dragVelocity, dragFilteredSamples, jsDiv, List.filter, hd, h2, hne]
  · simp [motionVelocity, trim, List.dropWhile, hk, hpos]

/-- C1 witness: the amended theorem at `t0 = 0`, `t1 = now = 1/50`,
`p0 = (0,0)`, `p1 = (1,2)`, `v0 = 0`, `v1 = 1`. -/
theorem C1_two_sample_velocity_witness :
    dragVelocity (1/50) [⟨0, ⟨0, 0⟩⟩, ⟨1/50, ⟨1, 2⟩⟩] = some ⟨50, 100⟩
    ∧ motionVelocity (1/50) [⟨0, 0⟩, ⟨1/50, 1⟩] = 50 := by
  have h := C1_two_sample_velocity 0 (1/50) (1/50) ⟨0, 0⟩ ⟨1, 2⟩ 0 1
    (by norm_num) (by norm_num) (by norm_num [dragWindow]) (by norm_num [lookBack])
  norm_num at h
  exact h

/-! ## Claim C2 -/

/-- C2, counterexample: the 2D (drag) tracker in the reachable state built
by two `add` calls at the same clock time holds two retained samples with
equal first and last timestamps, and its velocity query divides the
position delta by the zero elapsed time — a non-finite JS result (modelled
by `none`), not the claimed zero vector. -/
theorem C2_counterexample_unguarded_division :
    dragVelocity 0 (dragAdd 0 (dragAdd 0 [] ⟨0, 0⟩) ⟨1, 0⟩) = none := by
  norm_num [dragVelocity, dragAdd, dragFilteredSamples, dragWindow, jsDiv, List.filter]

/-- C2, amended: the scalar (motion) tracker's velocity query is fully
guarded — it returns 0 with at most one retained sample (and, always
guarding the division, whenever the elapsed time from the first retained
sample to the query is not positive). The 2D (drag) tracker returns the
zero vector when fewer than two samples survive the filter, but with two
or more surviving samples whose first and last timestamps are equal its
division is unguarded and the result is non-finite (`none`), not zero. -/
theorem C2_degenerate_velocity (now : ℚ) (ms : List MotionSample) (ds : List DragSample) :
    ((trim now ms).length ≤ 1 → motionVelocity now ms = 0)
    ∧ (∀ f l, (trim now ms).head? = some f → (trim now ms).getLast? = some l →
        now - f.time ≤ 0 → motionVelocity now ms = 0)
    ∧ ((dragFilteredSamples now ds).length < 2 → dragVelocity now ds = some ⟨0, 0⟩)
    ∧ (∀ f l, (dragFilteredSamples now ds).head? = some f →
        (dragFilteredSamples now ds).getLast? = some l →
        2 ≤ (dragFilteredSamples now ds).length → f.time = l.time →
        dragVelocity now ds = none) := by
  refine ⟨?_, ?_, ?_, ?_⟩
  · intro h
    unfold motionVelocity
    match hts : trim now ms with
    | [] => simp
    | [s] => simp [hts]
    | a :: b :: rest => rw [hts] at h; simp at h
  · intro f l hf hl hle
    unfold motionVelocity
    simp only [hf, hl]
    simp [not_lt.mpr hle]
  · intro h
    unfold dragVelocity
    simp [h]
  · intro f l hf hl hlen htime
    unfold dragVelocity
    rw [if_neg (by omega), hf, hl]
    simp [jsDiv, htime, sub_self]

/-- C2 witness: the amended theorem at `now = 0` with empty sample lists
(first, third conjunct) and at a singleton list queried at its own sample
time (second conjunct). -/
theorem C2_degenerate_velocity_witness :
    motionVelocity 0 ([] : List MotionSample) = 0
    ∧ motionVelocity 0 [(⟨0, 7⟩ : MotionSample)] = 0
    ∧ dragVelocity 0 ([] : List DragSample) = some ⟨0, 0⟩ := by
  refine ⟨(C2_degenerate_velocity 0 [] []).1 (by simp [trim, List.dropWhile]),
    (C2_degenerate_velocity 0 [⟨0, 7⟩] []).2.1 ⟨0, 7⟩ ⟨0, 7⟩ ?_ ?_ (by norm_num),
    (C2_degenerate_velocity 0 [] []).2.2.1 (by simp [dragFilteredSamples])⟩ <;>
  norm_num [trim, List.dropWhile, lookBack]

/-! ## Claim C3 -/

/-- C3, counterexample: the rect with origin 0 and width 3 constrained to
bounds with origin 0 and width 1 is wider than the bounds, but its
resulting x origin is `boundsMaxX - width = -2`, not the bounds' origin 0:
an oversized rect is pinned to the bounds' far edge, not its origin. -/
theorem C3_counterexample_oversized_origin :
    (constrainRect ⟨⟨0, 0⟩, ⟨3, 1⟩⟩ ⟨⟨0, 0⟩, ⟨1, 1⟩⟩).origin.x ≠ (0 : ℚ) := by
  norm_num [constrainRect, CGRectGetMinX, CGRectGetMaxX, CGRectGetMinY, CGRectGetMaxY]

/-- C3, amended: `constrainRect` never changes the size; on an axis where
the rect fits inside the bounds the result lies fully within the bounds on
that axis (in particular for a rect partially outside on a single edge);
but on an axis where the rect is strictly larger than the bounds the
result's origin is `bounds max - rect size` on that axis (max edge pinned
to the bounds' max edge), which is strictly below the bounds' origin. -/
theorem C3_constrain_rect (r b : CGRect) :
    (constrainRect r b).size = r.size
    ∧ (r.size.width ≤ b.size.width →
        CGRectGetMinX b ≤ CGRectGetMinX (constrainRect r b)
        ∧ CGRectGetMaxX (constrainRect r b) ≤ CGRectGetMaxX b)
    ∧ (r.size.height ≤ b.size.height →
        CGRectGetMinY b ≤ CGRectGetMinY (constrainRect r b)
        ∧ CGRectGetMaxY (constrainRect r b) ≤ CGRectGetMaxY b)
    ∧ (b.size.width < r.size.width →
        (constrainRect r b).origin.x = CGRectGetMaxX b - r.size.width)
    ∧ (b.size.height < r.size.height →
        (constrainRect r b).origin.y = CGRectGetMaxY b - r.size.height) := by
  unfold constrainRect
  simp only [CGRectGetMinX, CGRectGetMaxX, CGRectGetMinY, CGRectGetMaxY, gt_iff_lt]
  split_ifs <;>
    refine ⟨rfl, fun h => ⟨?_, ?_⟩, fun h => ⟨?_, ?_⟩, fun h => ?_, fun h => ?_⟩
  all_goals try dsimp only
  all_goals linarith

/-- C3 witness: the amended theorem at a rect of size 1×1 protruding past
the bounds' left edge of a 4×4 bounds square. -/
theorem C3_constrain_rect_witness :
    (constrainRect ⟨⟨-2, 1⟩, ⟨1, 1⟩⟩ ⟨⟨0, 0⟩, ⟨4, 4⟩⟩).size = (⟨1, 1⟩ : CGSize)
    ∧ (CGRectGetMinX (⟨⟨0, 0⟩, ⟨4, 4⟩⟩ : CGRect)
        ≤ CGRectGetMinX (constrainRect ⟨⟨-2, 1⟩, ⟨1, 1⟩⟩ ⟨⟨0, 0⟩, ⟨4, 4⟩⟩)
       ∧ CGRectGetMaxX (constrainRect ⟨⟨-2, 1⟩, ⟨1, 1⟩⟩ ⟨⟨0, 0⟩, ⟨4, 4⟩⟩)
        ≤ CGRectGetMaxX (⟨⟨0, 0⟩, ⟨4, 4⟩⟩ : CGRect))
    ∧ (CGRectGetMinY (⟨⟨0, 0⟩, ⟨4, 4⟩⟩ : CGRect)
        ≤ CGRectGetMinY (constrainRect ⟨⟨-2, 1⟩, ⟨1, 1⟩⟩ ⟨⟨0, 0⟩, ⟨4, 4⟩⟩)
       ∧ CGRectGetMaxY (constrainRect ⟨⟨-2, 1⟩, ⟨1, 1⟩⟩ ⟨⟨0, 0⟩, ⟨4, 4⟩⟩)
        ≤ CGRectGetMaxY (⟨⟨0, 0⟩, ⟨4, 4⟩⟩ : CGRect)) := by
  have h := C3_constrain_rect ⟨⟨-2, 1⟩, ⟨1, 1⟩⟩ ⟨⟨0, 0⟩, ⟨4, 4⟩⟩
  exact ⟨h.1, h.2.1 (by norm_num), h.2.2.1 (by norm_num)⟩

/-! ## Claim C4 -/

/-- Any sequence of solver `onUpdate` callbacks leaves `animating` and the
`_velocity` field untouched: the solver reports values, never velocities. -/
theorem solverTicks_preserve (raws : List ℚ) (s : SpringAnimation) :
    (raws.foldl SpringAnimation.solverTick s).animating = s.animating
    ∧ (raws.foldl SpringAnimation.solverTick s).velocityVar = s.velocityVar := by
  induction raws generalizing s with
  | nil => exact ⟨rfl, rfl⟩
  | cons a t ih => simpa [SpringAnimation.solverTick] using ih (s.solverTick a)

/-- C4, counterexample: start a spring (initial value 0, scale 1) toward
target 1 with initial velocity 5; after a solver update has moved the value
to 1/2 the `velocity` property still returns the initial 5 — it does not
track the solver's current rate as the solve progresses. -/
theorem C4_counterexample_stale_velocity :
    (((SpringAnimation.create 0 0 1).start 1 5).solverTick (1/2)).value = 1/2
    ∧ (((SpringAnimation.create 0 0 1).start 1 5).solverTick (1/2)).velocity 0 = 5 := by
  constructor
  · norm_num [SpringAnimation.create, SpringAnimation.setValue, SpringAnimation.stop,
      SpringAnimation.start, SpringAnimation.solverTick]
  · norm_num [SpringAnimation.create, SpringAnimation.setValue, SpringAnimation.stop,
      SpringAnimation.start, SpringAnimation.solverTick, SpringAnimation.velocity]

/-- C4, amended: when `animating` is false the `velocity` property is the
externally-set-value tracker's velocity; when animating — after `start`
with initial velocity `v` and any number of solver updates — it is exactly
that initial `v`, unchanged by solver progress, because the solver's
updates carry only values and `_velocity` is written nowhere else. -/
theorem C4_velocity_property (now : ℚ) (s : SpringAnimation) (tv v : ℚ) (raws : List ℚ) :
    (s.animating = false → s.velocity now = motionVelocity now s.samples)
    ∧ (raws.foldl SpringAnimation.solverTick (s.start tv v)).animating = true
    ∧ (raws.foldl SpringAnimation.solverTick (s.start tv v)).velocity now = v := by
  refine ⟨?_, ?_, ?_⟩
  · intro h
    simp [SpringAnimation.velocity, h]
  · rw [(solverTicks_preserve raws _).1]
    rfl
  · rw [SpringAnimation.velocity, (solverTicks_preserve raws _).1,
      (solverTicks_preserve raws _).2]
    rfl

/-- C4 witness: the amended theorem at a freshly constructed spring, target
1, initial velocity 5, one solver update to 1/2, queried at time 0. -/
theorem C4_velocity_property_witness :
    (SpringAnimation.create 0 3 1).velocity 0
      = motionVelocity 0 (SpringAnimation.create 0 3 1).samples
    ∧ ([(1 : ℚ)/2].foldl SpringAnimation.solverTick
        ((SpringAnimation.create 0 3 1).start 1 5)).animating = true
    ∧ ([(1 : ℚ)/2].foldl SpringAnimation.solverTick
        ((SpringAnimation.create 0 3 1).start 1 5)).velocity 0 = 5 := by
  have h := C4_velocity_property 0 (SpringAnimation.create 0 3 1) 1 5 [1/2]
  exact ⟨h.1 rfl, h.2.1, h.2.2⟩

/-! ## Claim C5 -/

/-- C5, confirmed: with a valid screen, a launch rect centered within 200
of the screen frame's bottom gets impulse `dy = 2000` (a positive upward
component); centered strictly more than 200 from the bottom, left and right
edges it gets the zero impulse; and `launch` appends the impulse
application to the deferred physics-step queue while the new ball's body
still has zero velocity (nothing is applied immediately). -/
theorem C5_launch_impulse_deferred (vc : ViewController) (rect frame : CGRect) (i : ℕ) :
    (CGRectGetMidY rect - CGRectGetMinY frame < 200 → (launchImpulse rect frame).dy = 2000)
    ∧ (200 < CGRectGetMidY rect - CGRectGetMinY frame →
        200 < CGRectGetMidX rect - CGRectGetMinX frame →
        200 < CGRectGetMaxX frame - CGRectGetMidX rect →
        launchImpulse rect frame = ⟨0, 0⟩)
    ∧ (vc.launch rect (some frame) i).physicsQueue
        = vc.physicsQueue ++ [launchImpulse rect frame]
    ∧ (∀ b, (vc.launch rect (some frame) i).ball = some b → b.velocity = ⟨0, 0⟩) := by
  refine ⟨?_, ?_, ?_, ?_⟩
  · intro h
    simp [launchImpulse, h]
  · intro h1 h2 h3
    simp [launchImpulse, not_lt.mpr h1.le, not_lt.mpr h2.le, not_lt.mpr h3.le]
  · rfl
  · intro b hb
    simp only [ViewController.launch, ViewController.setBall] at hb
    cases hb
    rfl

/-- C5 witness: the confirmed theorem at a 50×50 launch rect centered at
(500, 100) on a 1000×800 screen frame at the origin: the center is 100
from the bottom, so the queued impulse points up. -/
theorem C5_launch_impulse_deferred_witness :
    (launchImpulse ⟨⟨475, 75⟩, ⟨50, 50⟩⟩ ⟨⟨0, 0⟩, ⟨1000, 800⟩⟩).dy = 2000
    ∧ ((⟨none, [], []⟩ : ViewController).launch ⟨⟨475, 75⟩, ⟨50, 50⟩⟩
        (some ⟨⟨0, 0⟩, ⟨1000, 800⟩⟩) 0).physicsQueue
        = [] ++ [launchImpulse ⟨⟨475, 75⟩, ⟨50, 50⟩⟩ ⟨⟨0, 0⟩, ⟨1000, 800⟩⟩] := by
  have h := C5_launch_impulse_deferred ⟨none, [], []⟩ ⟨⟨475, 75⟩, ⟨50, 50⟩⟩
    ⟨⟨0, 0⟩, ⟨1000, 800⟩⟩ 0
  exact ⟨h.1 (by norm_num [CGRectGetMidY, CGRectGetMinY]), h.2.2.1⟩

/-! ## Claim C6 -/

/-- C6, confirmed: the normalized collision strength is the clamped linear
remap of the impulse from [1000, 2000] to [0, 0.5]: impulse below 1000
gives strength ≤ 0 and no sound; impulse 1500 gives 1/4; impulse at or
above 2000 gives 1/2; and whenever a sound is started its volume is the
strength, the strength is positive, and some player was idle. -/
theorem C6_collision_strength (impulse : ℚ) (busy : List Bool) :
    (impulse < 1000 →
        collisionStrength impulse ≤ 0 ∧ didBeginContactSound impulse busy = none)
    ∧ collisionStrength 1500 = 1/4
    ∧ (2000 ≤ impulse → collisionStrength impulse = 1/2)
    ∧ (∀ v, didBeginContactSound impulse busy = some v →
        v = collisionStrength impulse ∧ 0 < v
        ∧ 0 < (busy.filter (fun b => !b)).length) := by
  refine ⟨?_, by norm_num [collisionStrength, remap], ?_, ?_⟩
  · intro h
    have hr : (impulse - 1000) / 1000 * (1/2) ≤ 0 := by
      apply mul_nonpos_of_nonpos_of_nonneg
      · apply div_nonpos_of_nonpos_of_nonneg <;> linarith
      · norm_num
    have hs : collisionStrength impulse ≤ 0 := by
      simp only [collisionStrength, remap]
      norm_num
      linarith
    refine ⟨hs, ?_⟩
    simp [didBeginContactSound, hs]
  · intro h
    have hr : (1 : ℚ)/2 ≤ (impulse - 1000) / 1000 * (1/2) := by
      rw [div_mul_eq_mul_div, le_div_iff₀ (by norm_num)]
      linarith
    simp only [collisionStrength, remap]
    norm_num
    linarith
  · intro v hv
    simp only [didBeginContactSound] at hv
    split_ifs at hv with h1 h2
    injection hv with hv
    exact ⟨hv.symm, hv ▸ lt_of_not_le h1, by omega⟩

/-- C6 witness: the confirmed theorem at impulse 500 (below range, one idle
player) and at the sound outcome for impulse 1500 with one idle player. -/
theorem C6_collision_strength_witness :
    collisionStrength 500 ≤ 0 ∧ didBeginContactSound 500 [false] = none := by
  exact (C6_collision_strength 500 [false]).1 (by norm_num)

/-! ## Claim C7 -/

/-- C7, confirmed: `dock(rect, onComplete)` with no active ball returns
after calling `onComplete` exactly once, synchronously, leaving the
controller state (ball, scene children, physics queue) untouched. -/
theorem C7_dock_no_ball (vc : ViewController) (rect : CGRect) (h : vc.ball = none) :
    vc.dock rect = (vc, 1) := by
  simp [ViewController.dock, h]

/-- C7 witness: the confirmed theorem at the empty controller and a unit
dock rect. -/
theorem C7_dock_no_ball_witness :
    (⟨none, [], []⟩ : ViewController).dock ⟨⟨0, 0⟩, ⟨1, 1⟩⟩
      = (⟨none, [], []⟩, 1) :=
  C7_dock_no_ball ⟨none, [], []⟩ ⟨⟨0, 0⟩, ⟨1, 1⟩⟩ rfl

/-! ## Claim C8 -/

/-- C8, confirmed: `start(target, v)` immediately followed by `stop()` (no
solver tick in between) leaves `value` exactly as before the `start`, with
`animating = false` and `targetValue` cleared; and `stop` is idempotent —
a second `stop` on any state changes nothing further. -/
theorem C8_start_then_stop (s : SpringAnimation) (tv v : ℚ) :
    ((s.start tv v).stop).value = s.value
    ∧ ((s.start tv v).stop).animating = false
    ∧ ((s.start tv v).stop).targetValue = none
    ∧ (∀ t : SpringAnimation, t.stop.stop = t.stop) :=
  ⟨rfl, rfl, rfl, fun _ => rfl⟩

/-! ## Claim C9 -/

/-- C9, confirmed: for strength in [0, 1], `didCollide` starts the squish
spring toward `remap(strength, 0, 1, 1, 0.8) = 1 - strength/5` (1 at
strength 0, 4/5 at strength 1) with initial velocity
`remap(strength, 0, 1, -5, -10) = -5 - 5·strength` (-5 at 0, -10 at 1),
and schedules a non-repeating 0.01 s (10 ms) timer whose block restarts
the squish spring toward 1 with that same velocity. -/
theorem C9_did_collide (sq : SpringAnimation) (strength : ℚ)
    (h0 : 0 ≤ strength) (h1 : strength ≤ 1) :
    (BallDidCollide sq strength).1 = sq.start (1 - strength / 5) (-5 - 5 * strength)
    ∧ (BallDidCollide sq strength).1.targetValue = some (1 - strength / 5)
    ∧ (BallDidCollide sq strength).2
        = ⟨1/100, false, 1, -5 - 5 * strength⟩ := by
  have ht : remap strength 0 1 1 (4/5) = 1 - strength / 5 := by
    simp only [remap]
    norm_num
    rw [max_eq_left (by linarith), min_eq_left (by linarith)]
    ring
  have hv : remap strength 0 1 (-5) (-10) = -5 - 5 * strength := by
    simp only [remap]
    norm_num
    rw [max_eq_left (by linarith), min_eq_left (by linarith)]
    ring
  refine ⟨?_, ?_, ?_⟩
  · simp only [BallDidCollide, ht, hv]
  · simp only [BallDidCollide, ht, hv, SpringAnimation.start, SpringAnimation.stop]
  · simp only [BallDidCollide, hv]

/-- C9 witness: the confirmed theorem at strength 1/2 — target 9/10,
velocity -15/2, one-shot 0.01 s timer restarting toward 1 with -15/2. -/
theorem C9_did_collide_witness :
    (BallDidCollide (SpringAnimation.create 0 1 1000 ⟨3/10, 1/2, 1/100⟩) (1/2)).2
      = ⟨1/100, false, 1, -5 - 5 * (1/2)⟩ :=
  (C9_did_collide (SpringAnimation.create 0 1 1000 ⟨3/10, 1/2, 1/100⟩) (1/2)
    (by norm_num) (by norm_num)).2.2

/-! ## Claim C10 -/

/-- C10, confirmed: the `ball` setter stores the new value, detaches the
previously held ball from the scene before attaching (the old node's id
survives only if the new value is that same node), preserves the
at-most-one-attached-ball invariant, keeps at most one scene child, and
attaches nothing when assigning `undefined`. -/
theorem C10_ball_setter (vc : ViewController) (v : Option BallEntity) :
    (vc.setBall v).ball = v
    ∧ (∀ b, vc.ball = some b → b.id ∈ (vc.setBall v).sceneChildren →
        ∃ e, v = some e ∧ e.id = b.id)
    ∧ (ballSceneInv vc → ballSceneInv (vc.setBall v))
    ∧ (ballSceneInv vc → (vc.setBall v).sceneChildren.length ≤ 1)
    ∧ (v = none → ballSceneInv vc → (vc.setBall v).sceneChildren = []) := by
  refine ⟨rfl, ?_, ?_, ?_, ?_⟩
  · intro b hb hmem
    cases v with
    | none =>
      simp only [ViewController.setBall, hb, destroyFromScene] at hmem
      rw [List.mem_filter] at hmem
      simp at hmem
    | some e =>
      simp only [ViewController.setBall, hb, destroyFromScene, List.mem_append,
        List.mem_singleton] at hmem
      rcases hmem with hmem | hmem
      · rw [List.mem_filter] at hmem
        simp at hmem
      · exact ⟨e, rfl, hmem.symm⟩
  · intro hinv
    rw [ballSceneInv] at *
    cases hv : vc.ball with
    | none =>
      rw [hv] at hinv
      cases v <;> simp [ViewController.setBall, hv, hinv, destroyFromScene]
    | some b =>
      rw [hv] at hinv
      cases v <;> simp [ViewController.setBall, hv, hinv, destroyFromScene]
  · intro hinv
    rw [ballSceneInv] at hinv
    cases hv : vc.ball with
    | none =>
      rw [hv] at hinv
      cases v <;> simp [ViewController.setBall, hv, hinv, destroyFromScene]
    | some b =>
      rw [hv] at hinv
      cases v <;> simp [ViewController.setBall, hv, hinv, destroyFromScene]
  · intro hnone hinv
    rw [ballSceneInv] at hinv
    subst hnone
    cases hv : vc.ball with
    | none =>
      rw [hv] at hinv
      simp [ViewController.setBall, hv, hinv]
    | some b =>
      rw [hv] at hinv
      simp [ViewController.setBall, hv, hinv, destroyFromScene]

/-- C10 witness: the confirmed theorem assigning `undefined` to a
controller holding an attached ball of id 7 — the scene ends empty. -/
theorem C10_ball_setter_witness :
    ((⟨some ⟨7, 100, ⟨0, 0⟩, 1, ⟨0, 0⟩, true, true⟩, [7], []⟩ : ViewController).setBall
      none).sceneChildren = [] := by
  refine (C10_ball_setter ⟨some ⟨7, 100, ⟨0, 0⟩, 1, ⟨0, 0⟩, true, true⟩, [7], []⟩
    none).2.2.2.2 rfl ?_
  rw [ballSceneInv]

end NSBall
